import Mathlib

/-!
Verification development for a Multi2Sim-derived CPU simulator.

Part one embeds the MOESI directory coherence engine of
`src/libcachesystem/moesi.c` (find-and-lock, load, store, evict, read
request, write request, invalidate handlers).  Part two embeds the x86
Linux system-call translator (`Context::ExecuteSyscall` and the handlers
for `brk`, `clone`, `futex`, and the unimplemented stubs).

Machine integers are modelled as `Nat` (register and address values are
unsigned 32-bit in the source; reductions modulo 2^32 are written
explicitly where overflow matters).  Fatal simulator errors
(`misc::fatal`, `panic`) are modelled as `Except.error` carrying the
diagnostic.
-/

set_option maxRecDepth 4000

/-- Cache block states of the MOESI protocol (the `cache_block_*` enum of
the cache system; `invalid` is the zero value used in truth tests such as
`if (stack->state)`). -/
inductive BlockState where
  | invalid
  | modified
  | owned
  | exclusive
  | shared
deriving DecidableEq, Repr, Fintype

/-- RETRY_LATENCY macro of moesi.c line 24:
`random() % mod->latency + mod->latency`, with `rand` the value returned
by `random()`. -/
def retryLatency (rand latency : Nat) : Nat :=
  rand % latency + latency

/-- State of a per-block directory lock: the held flag and the FIFO queue
of accesses waiting for it.  Modelled from the spec: the dir_lock
implementation is not under src; the spec states that the directory lock
is a FIFO queue among waiters. -/
structure DirLock where
  lock : Bool
  queue : List Nat
deriving DecidableEq, Repr

/-- Outcome of the lock-acquisition step of `mod_handler_find_and_lock`. -/
structure FindAndLockLockOutcome where
  err : Bool
  acquired : Bool
  dirLock : DirLock
deriving DecidableEq, Repr

/-- Lock-acquisition step of EV_MOD_FIND_AND_LOCK (moesi.c lines 379-400):
a non-blocking caller that finds the lock held returns err=1 without
touching the queue; a blocking caller is enqueued FIFO; a free lock is
taken immediately. -/
def findAndLockAcquire (accessId : Nat) (blocking : Bool) (dl : DirLock) :
    FindAndLockLockOutcome :=
  if dl.lock && !blocking then
    { err := true, acquired := false, dirLock := dl }
  else if dl.lock then
    { err := false, acquired := false,
      dirLock := { dl with queue := dl.queue ++ [accessId] } }
  else
    { err := false, acquired := true, dirLock := { dl with lock := true } }

/-- Observable outcome of a load access from EV_MOD_LOAD_ACTION onward
(moesi.c lines 123-196). -/
structure LoadOutcome where
  sentReadRequest : Bool
  installed : Option BlockState
  finished : Bool
  unlocked : Bool
  retryScheduled : Bool
  retryDelay : Nat
  readRetriesInc : Nat
deriving DecidableEq, Repr

/-- Load flow of `mod_handler_load` from EV_MOD_LOAD_ACTION
(moesi.c lines 123-196).  `err` is the error flag returned by
find-and-lock, `state` the block state it found, `readErr` and
`sharedReply` the error and shared flags returned by the read request sent
on a miss, and `rand`/`latency` feed RETRY_LATENCY. -/
def runLoadFromAction (err : Bool) (state : BlockState)
    (readErr sharedReply : Bool) (rand latency : Nat) : LoadOutcome :=
  if err then
    { sentReadRequest := false, installed := none, finished := false,
      unlocked := false, retryScheduled := true,
      retryDelay := retryLatency rand latency, readRetriesInc := 1 }
  else if state ≠ BlockState.invalid then
    { sentReadRequest := false, installed := none, finished := true,
      unlocked := true, retryScheduled := false, retryDelay := 0,
      readRetriesInc := 0 }
  else if readErr then
    { sentReadRequest := true, installed := none, finished := false,
      unlocked := true, retryScheduled := true,
      retryDelay := retryLatency rand latency, readRetriesInc := 1 }
  else
    { sentReadRequest := true,
      installed := some (if sharedReply then BlockState.shared
        else BlockState.exclusive),
      finished := true, unlocked := true, retryScheduled := false,
      retryDelay := 0, readRetriesInc := 0 }

/-- Retry bookkeeping of the store flow on a lock error
(moesi.c lines 242-249 and 275-283). -/
structure StoreRetryOutcome where
  retryScheduled : Bool
  retryDelay : Nat
  writeRetriesInc : Nat
deriving DecidableEq, Repr

/-- Error path of EV_MOD_STORE_ACTION (moesi.c lines 242-249): the store
is rescheduled after RETRY_LATENCY and the write-retry counter grows. -/
def storeActionOnErr (rand latency : Nat) : StoreRetryOutcome :=
  { retryScheduled := true, retryDelay := retryLatency rand latency,
    writeRetriesInc := 1 }

/-- Directory entry for one sub-block: the sharer set over upper-level
node indices and the owner (`DIR_ENTRY_OWNER_NONE` modelled as `none`). -/
structure DirEntry where
  sharers : Finset Nat
  owner : Option Nat
deriving DecidableEq

/-- dir_entry_set_sharer: set the sharer bit of a node. -/
def dir_entry_set_sharer (node : Nat) (e : DirEntry) : DirEntry :=
  { e with sharers := insert node e.sharers }

/-- dir_entry_clear_sharer: clear the sharer bit of a node. -/
def dir_entry_clear_sharer (node : Nat) (e : DirEntry) : DirEntry :=
  { e with sharers := e.sharers.erase node }

/-- Per-entry effect of EV_MOD_INVALIDATE (moesi.c lines 1339-1371): every
sharer other than the excepted node is cleared, and the owner becomes NONE
when it was one of the cleared sharers. -/
def invalidateEntryExcept (except : Nat) (e : DirEntry) : DirEntry :=
  { sharers := e.sharers.filter (fun n => n = except),
    owner := match e.owner with
      | some o => if o ≠ except ∧ o ∈ e.sharers then none else some o
      | none => none }

/-- Sub-block z of the target line lies within the address range requested
by the upper-level module (the guard
`dir_entry_tag < stack->addr || dir_entry_tag >= stack->addr + mod->block_size`
of moesi.c lines 1230-1232, negated). -/
def inRequestedRange (tag addr minBlockSize reqBlockSize z : Nat) : Bool :=
  decide (addr ≤ tag + z * minBlockSize) &&
    decide (tag + z * minBlockSize < addr + reqBlockSize)

/-- Result of the up-down write-request path at the target module. -/
structure WriteRequestUpdownResult where
  state : BlockState
  entries : Nat → DirEntry
  replySize : Nat
  requestedExclusiveBelow : Bool
  err : Bool

/-- Up-down path of `mod_handler_write_request` at the target module
(moesi.c lines 1150-1249): EV_MOD_WRITE_REQUEST_ACTION invalidates the
upper-level sharers other than the requester,
EV_MOD_WRITE_REQUEST_UPDOWN forwards a write request to the next level
down unless the block is resident M or E, and
EV_MOD_WRITE_REQUEST_UPDOWN_FINISH records the requester as sharer and
owner of every requested sub-block, sets the block state (M stays M, every
other state becomes E) and replies with the requester's block size plus
the 8-byte header.  `req` is the requester's node index on the target's
high network, `state` the block state found by find-and-lock, `zsize` the
number of directory sub-entries, and `lowErr` the error flag returned by
the recursive write request to the next level down. -/
def writeRequestUpdown (req : Nat) (state : BlockState) (zsize : Nat)
    (entries : Nat → DirEntry) (tag addr minBlockSize reqBlockSize : Nat)
    (lowErr : Bool) : WriteRequestUpdownResult :=
  let entries1 : Nat → DirEntry := fun z =>
    if z < zsize then invalidateEntryExcept req (entries z) else entries z
  let needBelow : Bool :=
    !(state == BlockState.modified) && !(state == BlockState.exclusive)
  if needBelow && lowErr then
    { state := state, entries := entries1, replySize := 8,
      requestedExclusiveBelow := true, err := true }
  else
    let entries2 : Nat → DirEntry := fun z =>
      if z < zsize &&
          inRequestedRange tag addr minBlockSize reqBlockSize z then
        let e := dir_entry_set_sharer req (entries1 z)
        { e with owner := some req }
      else entries1 z
    { state := if state = BlockState.modified then BlockState.modified
        else BlockState.exclusive,
      entries := entries2,
      replySize := reqBlockSize + 8,
      requestedExclusiveBelow := needBelow,
      err := false }

namespace TwoLevel

/-!
Finite instance of the coherence engine used for claim C7: two level-one
caches above one main-memory module, a single address, and a line equal to
one directory sub-block (`block_size = min_block_size`), so every loop
over sub-blocks in moesi.c collapses to a single entry.  Each definition
below transcribes the state changes of one handler of moesi.c for this
configuration; a complete operation is the composition of its handler
steps in the order the events are scheduled for an uncontended access.
-/

/-- Upper-level node ids: node 0 of the lower module's high network is the
lower module itself, so the two caches are nodes 1 and 2. -/
inductive NodeId where
  | n1
  | n2
deriving DecidableEq, Repr, Fintype

/-- The other upper-level cache. -/
def NodeId.other : NodeId → NodeId
  | NodeId.n1 => NodeId.n2
  | NodeId.n2 => NodeId.n1

/-- Global state: the block state in each cache, the block state at the
main-memory module, and the lower directory entry (sharer bits and owner)
for the single sub-block. -/
structure Sys where
  cache1 : BlockState
  cache2 : BlockState
  low : BlockState
  sharer1 : Bool
  sharer2 : Bool
  owner : Option NodeId
deriving DecidableEq, Repr, Fintype

/-- Block state of cache `i`. -/
def getCache (i : NodeId) (s : Sys) : BlockState :=
  match i with
  | NodeId.n1 => s.cache1
  | NodeId.n2 => s.cache2

/-- Set the block state of cache `i` (cache_set_block at an upper
module). -/
def setCache (i : NodeId) (b : BlockState) (s : Sys) : Sys :=
  match i with
  | NodeId.n1 => { s with cache1 := b }
  | NodeId.n2 => { s with cache2 := b }

/-- Sharer bit of node `i` in the lower directory entry. -/
def getSharer (i : NodeId) (s : Sys) : Bool :=
  match i with
  | NodeId.n1 => s.sharer1
  | NodeId.n2 => s.sharer2

/-- dir_entry_set_sharer at the lower directory. -/
def setSharerBit (i : NodeId) (s : Sys) : Sys :=
  match i with
  | NodeId.n1 => { s with sharer1 := true }
  | NodeId.n2 => { s with sharer2 := true }

/-- dir_entry_clear_sharer at the lower directory. -/
def clearSharerBit (i : NodeId) (s : Sys) : Sys :=
  match i with
  | NodeId.n1 => { s with sharer1 := false }
  | NodeId.n2 => { s with sharer2 := false }

/-- num_sharers of the lower directory entry. -/
def numSharers (s : Sys) : Nat :=
  (if s.sharer1 then 1 else 0) + (if s.sharer2 then 1 else 0)

/-- Find-and-lock at the main-memory module (moesi.c lines 450-457): a
directory miss at main memory materialises the block in state E. -/
def findAndLockLower (s : Sys) : Sys :=
  if s.low = BlockState.invalid then { s with low := BlockState.exclusive }
  else s

/-- Down-up read request received by cache `i`
(moesi.c lines 971-1040): the resident copy is downgraded to S (the
level-one cache has no upper sharers of its own, so the forwarding loop
and its own directory update are empty). -/
def readDownup (i : NodeId) (s : Sys) : Sys :=
  setCache i BlockState.shared s

/-- Down-up write request received by cache `i`
(moesi.c lines 1251-1264): the resident copy is invalidated. -/
def writeDownup (i : NodeId) (s : Sys) : Sys :=
  setCache i BlockState.invalid s

/-- EV_MOD_INVALIDATE at the lower module with `req` excepted
(moesi.c lines 1326-1373): each sharer other than `req` loses its sharer
bit and the ownership, and receives a down-up write request invalidating
its copy. -/
def invalidateLowerExcept (req : NodeId) (s : Sys) : Sys :=
  let j := req.other
  if getSharer j s then
    let s := clearSharerBit j s
    let s := if s.owner = some j then { s with owner := none } else s
    writeDownup j s
  else s

/-- Up-down read request at the lower module, starting from its
find-and-lock (moesi.c lines 785-968 for the main-memory target): the
block is materialised, the read is forwarded down-up to an owner other
than the requester, owners other than the requester are cleared, the
requester becomes a sharer, the shared flag reports whether another
sharer remains, and without one the requester becomes owner.  Returns the
new state and the shared reply flag. -/
def readRequestAtLower (req : NodeId) (s : Sys) : Sys × Bool :=
  let s := findAndLockLower s
  let s := match s.owner with
    | some o => if o ≠ req then readDownup o s else s
    | none => s
  let s := { s with owner := match s.owner with
    | some o => if o = req then some o else none
    | none => none }
  let s := setSharerBit req s
  let isShared := decide (1 < numSharers s)
  let s := if isShared then s else { s with owner := some req }
  (s, isShared)

/-- Up-down write request at the lower module, starting from its
find-and-lock (moesi.c lines 1129-1249 for the main-memory target): the
block is materialised, the other upper-level sharers are invalidated, an
exclusive request goes further down unless the block is M or E (below
main memory there is no further level to change), and the finish step
records the requester as sole sharer and owner and sets the block state,
M staying M and every other state becoming E. -/
def writeRequestAtLower (req : NodeId) (s : Sys) : Sys :=
  let s := findAndLockLower s
  let s := invalidateLowerExcept req s
  let s := setSharerBit req s
  let s := { s with owner := some req }
  { s with low := if s.low = BlockState.modified then BlockState.modified
      else BlockState.exclusive }

/-- State reached in a load miss of cache `i` right after
EV_MOD_READ_REQUEST_UPDOWN_FINISH at the lower module and before
EV_MOD_LOAD_MISS installs the block: the reply message and its receipt
are scheduled events in between (moesi.c lines 964-968, 1042-1081,
155-181). -/
def loadMissMid (i : NodeId) (s : Sys) : Sys :=
  (readRequestAtLower i s).1

/-- Complete load at cache `i` (mod_handler_load, moesi.c lines 87-196):
a hit finishes without further requests; a miss sends a read request to
the module below and installs S when the reply is shared, E otherwise. -/
def doLoad (i : NodeId) (s : Sys) : Sys :=
  if getCache i s ≠ BlockState.invalid then s
  else
    let r := readRequestAtLower i s
    setCache i (if r.2 then BlockState.shared else BlockState.exclusive) r.1

/-- Complete store at cache `i` (mod_handler_store, moesi.c lines
199-297): with the block resident M or E the store finishes as M at once;
otherwise a write request goes to the module below and the store finishes
as M. -/
def doStore (i : NodeId) (s : Sys) : Sys :=
  if getCache i s = BlockState.modified ∨
      getCache i s = BlockState.exclusive then
    setCache i BlockState.modified s
  else
    setCache i BlockState.modified (writeRequestAtLower i s)

/-- Complete eviction of cache `i`'s block (mod_handler_evict, moesi.c
lines 474-740): an invalid block finishes untouched; otherwise M/O blocks
send a writeback (the lower module invalidates the other sharers and
marks its copy M), S/E blocks send a bare acknowledgement, the lower
directory drops the evicting node's sharer bit and ownership, and the
evicting cache marks its block I. -/
def doEvict (i : NodeId) (s : Sys) : Sys :=
  if getCache i s = BlockState.invalid then s
  else
    let wb := getCache i s = BlockState.modified ∨
      getCache i s = BlockState.owned
    let s := findAndLockLower s
    let s := if wb then
        { (invalidateLowerExcept i s) with low := BlockState.modified }
      else s
    let s := clearSharerBit i s
    let s := if s.owner = some i then { s with owner := none } else s
    setCache i BlockState.invalid s

/-- Claim C7's per-cache predicate: M/E/O implies the lower directory
records this node as the unique owner (with M/E additionally the only
sharer); I implies no sharer bit and no ownership reference this node. -/
def cacheInv (i : NodeId) (s : Sys) : Bool :=
  let c := getCache i s
  if c = BlockState.modified ∨ c = BlockState.exclusive then
    s.owner == some i && getSharer i s && !(getSharer i.other s)
  else if c = BlockState.owned then
    s.owner == some i
  else if c = BlockState.invalid then
    !(getSharer i s) && !(s.owner == some i)
  else
    true

/-- Claim C7's predicate over the whole system. -/
def invHolds (s : Sys) : Bool :=
  cacheInv NodeId.n1 s && cacheInv NodeId.n2 s

end TwoLevel

/-!
System-call translator embeddings (src/unnamed/part_001, the x86
`Context::ExecuteSyscall*` handlers).
-/


/-- Decidable equality for Except values, used to evaluate embedded
handlers on concrete inputs. -/
instance exceptDecEq {e a : Type} [DecidableEq e] [DecidableEq a] :
    DecidableEq (Except e a) := fun x y =>
  match x, y with
  | Except.ok v, Except.ok w =>
    if h : v = w then Decidable.isTrue (by rw [h])
    else Decidable.isFalse (by intro he; cases he; exact h rfl)
  | Except.error v, Except.error w =>
    if h : v = w then Decidable.isTrue (by rw [h])
    else Decidable.isFalse (by intro he; cases he; exact h rfl)
  | Except.ok _, Except.error _ => Decidable.isFalse (by intro he; cases he)
  | Except.error _, Except.ok _ => Decidable.isFalse (by intro he; cases he)

/-- Guest errno EAGAIN of the i386 ABI (SIM_EAGAIN, part_001 line 90; it
coincides with the host errno value the futex handler returns). -/
def SIM_EAGAIN : Nat := 11

/-- Slice of the x86 Context relevant to futex suspension: the wakeup
metadata fields and the two state bits ContextSuspended and ContextFutex
set by the handler. -/
structure FutexCtx where
  wakeup_futex : Nat
  wakeup_futex_bitset : Nat
  wakeup_futex_sleep : Nat
  suspended : Bool
  futexBit : Bool
deriving DecidableEq, Repr

/-- Test whether a context is suspended on the futex at `addr` with a
bitset intersecting `mask`. -/
def isFutexWaiterOn (addr mask : Nat) (c : FutexCtx) : Bool :=
  c.suspended && c.futexBit && c.wakeup_futex == addr &&
    (c.wakeup_futex_bitset &&& mask) != 0

/-- Wake the first matching waiter holding the given sleep epoch: its
ContextSuspended and ContextFutex bits are cleared. -/
def wakeFirstWithSleep (addr mask sleepEpoch : Nat) :
    List FutexCtx → List FutexCtx
  | [] => []
  | c :: rest =>
    if isFutexWaiterOn addr mask c && c.wakeup_futex_sleep == sleepEpoch then
      { c with suspended := false, futexBit := false } :: rest
    else
      c :: wakeFirstWithSleep addr mask sleepEpoch rest

/-- Modelled from the spec: `Context::FutexWake` is called by the futex
handler but its body is not under src.  Per spec section 4.4, it wakes up
to `count` contexts suspended on the futex at `addr` whose bitset
intersects `mask`, preferring lower sleep epochs, and returns the number
woken. -/
def futexWake (addr mask : Nat) : Nat → List FutexCtx → Nat × List FutexCtx
  | 0, l => (0, l)
  | Nat.succ n, l =>
    match ((l.filter (isFutexWaiterOn addr mask)).map
        FutexCtx.wakeup_futex_sleep).min? with
    | none => (0, l)
    | some e =>
      let r := futexWake addr mask n (wakeFirstWithSleep addr mask e l)
      (r.1 + 1, r.2)

/-- Requeue pass of FUTEX_CMP_REQUEUE (part_001 lines 4292-4301): every
context still suspended on the futex at `addr1` is moved to the futex at
`addr2`. -/
def requeueFutexList (addr1 addr2 : Nat) (l : List FutexCtx) :
    List FutexCtx :=
  l.map (fun c =>
    if c.suspended && c.futexBit && c.wakeup_futex == addr1 then
      { c with wakeup_futex := addr2 }
    else c)

/-- Result of a completed futex system call. -/
structure FutexResult where
  ret : Int
  caller : FutexCtx
  suspendedList : List FutexCtx
  futexSleepCount : Nat
deriving DecidableEq, Repr

/-- Fatal diagnostic of futex WAIT with a non-null timeout pointer
(part_001 line 4242). -/
def futexWaitTimeoutFatalMsg : String :=
  "syscall futex: FUTEX_WAIT not supported with timeout"

/-- Fatal diagnostic of FUTEX_CMP_REQUEUE with a timeout argument other
than INTMAX (part_001 lines 4277-4278). -/
def futexCmpRequeueFatalMsg : String :=
  "ExecuteSyscall_futex: FUTEX_CMP_REQUEUE: only supported for ptimeout=INTMAX"

/-- Fatal diagnostic of the default branch of the futex dispatch
(part_001 lines 4382-4385). -/
def futexNotImplementedMsg : String :=
  "ExecuteSyscall_futex: not implemented for this cmd"

/-- Shallow embedding of `Context::ExecuteSyscall_futex` (part_001 lines
4195-4390).  `futexWord` is the 32-bit word the handler reads at `addr1`;
`selfCtx` is the calling context; `suspendedList` is the emulator's suspended
context list; `futexSleepCount` is the global sleep-epoch counter.  The
command is the op register with FUTEX_PRIVATE_FLAG and
FUTEX_CLOCK_REALTIME removed.  Commands 0/9 (WAIT/WAIT_BITSET), 1/10
(WAKE/WAKE_BITSET) and 4 (CMP_REQUEUE) are embedded; command 5 (WAKE_OP)
is implemented in the source but lies outside this embedding, signalled
by `none`; every other command hits the fatal default branch. -/
def futexSyscall (addr1 op val1 timeoutPtr addr2 val3 futexWord : Nat)
    (selfCtx : FutexCtx) (suspendedList : List FutexCtx)
    (futexSleepCount : Nat) : Option (Except String FutexResult) :=
  let cmd := op &&& 0xFFFFFE7F
  let unchanged : Int → FutexResult := fun v =>
    { ret := v, caller := selfCtx, suspendedList := suspendedList,
      futexSleepCount := futexSleepCount }
  if cmd = 0 ∨ cmd = 9 then
    let bitset := if cmd = 9 then val3 else 0xFFFFFFFF
    if futexWord ≠ val1 then
      some (Except.ok (unchanged (-(SIM_EAGAIN : Int))))
    else if timeoutPtr ≠ 0 then
      some (Except.error futexWaitTimeoutFatalMsg)
    else
      let sleeper : FutexCtx :=
        { wakeup_futex := addr1, wakeup_futex_bitset := bitset,
          wakeup_futex_sleep := futexSleepCount + 1,
          suspended := true, futexBit := true }
      let res : FutexResult :=
        { ret := 0, caller := sleeper, suspendedList := suspendedList,
          futexSleepCount := futexSleepCount + 1 }
      some (Except.ok res)
  else if cmd = 1 ∨ cmd = 10 then
    let bitset := if cmd = 10 then val3 else 0xFFFFFFFF
    let r := futexWake addr1 bitset val1 suspendedList
    let res : FutexResult :=
      { ret := (r.1 : Int), caller := selfCtx, suspendedList := r.2,
        futexSleepCount := futexSleepCount }
    some (Except.ok res)
  else if cmd = 4 then
    if timeoutPtr ≠ 0x7FFFFFFF then
      some (Except.error futexCmpRequeueFatalMsg)
    else if futexWord ≠ val3 then
      some (Except.ok (unchanged (-(SIM_EAGAIN : Int))))
    else
      let r := futexWake addr1 0xFFFFFFFF val1 suspendedList
      let res : FutexResult :=
        { ret := (r.1 : Int), caller := selfCtx,
          suspendedList := requeueFutexList addr1 addr2 r.2,
          futexSleepCount := futexSleepCount }
      some (Except.ok res)
  else if cmd = 5 then
    none
  else
    some (Except.error futexNotImplementedMsg)

/-- Guest memory slice used by the brk handler: the heap break cursor and
the set of mapped page base addresses.  Modelled from the spec where the
mem::Memory methods are not under src: MapSpace at the hint succeeds
exactly when every page of the range is free, Map marks the pages mapped,
Unmap removes them. -/
structure BrkMemory where
  heapBreak : Nat
  pages : Finset Nat
deriving DecidableEq

/-- misc::RoundUp to the 4 KiB page size (mem::MemoryPageSize). -/
def roundUpPage (n : Nat) : Nat := (n + 4095) / 4096 * 4096

/-- Base addresses of the pages covering `size` bytes from `base`
(`base` and `size` page-aligned). -/
def pageList (base size : Nat) : List Nat :=
  (List.range (size / 4096)).map (fun i => base + i * 4096)

/-- Shallow embedding of `Context::ExecuteSyscall_brk` (part_001 lines
1195-1246): brk(0) reports the current break; growth maps the new pages
(fatal when occupied) and stores the unaligned new break; shrinking
unmaps and stores the unaligned new break; an unchanged break returns
0. -/
def executeSyscallBrk (newHeapBreak : Nat) (mem : BrkMemory) :
    Except String (Nat × BrkMemory) :=
  let oldHeapBreak := mem.heapBreak
  let newAligned := roundUpPage newHeapBreak
  let oldAligned := roundUpPage oldHeapBreak
  if newHeapBreak = 0 then
    Except.ok (oldHeapBreak, mem)
  else if oldHeapBreak < newHeapBreak then
    let size := newAligned - oldAligned
    if size ≠ 0 then
      if (pageList oldAligned size).all (fun p => decide (p ∉ mem.pages)) then
        Except.ok (newHeapBreak,
          { heapBreak := newHeapBreak,
            pages := mem.pages ∪ (pageList oldAligned size).toFinset })
      else
        Except.error "ExecuteSyscall_brk: out of memory"
    else
      Except.ok (newHeapBreak, { mem with heapBreak := newHeapBreak })
  else if newHeapBreak < oldHeapBreak then
    let size := oldAligned - newAligned
    Except.ok (newHeapBreak,
      { heapBreak := newHeapBreak,
        pages := mem.pages \ (pageList newAligned size).toFinset })
  else
    Except.ok (0, mem)

/-- Register file slice used by the syscall return convention. -/
structure X86Regs where
  eax : Int
deriving DecidableEq, Repr

/-- Context slice for the syscall return convention: the registers and
the ContextSuspended bit as the handler left them. -/
structure SyscallContext where
  regs : X86Regs
  suspended : Bool
deriving DecidableEq, Repr

/-- Code of the sigreturn system call in the i386 table loaded from
syscall.dat. -/
def SyscallCode_sigreturn : Nat := 119

/-- Return-value commit at the end of `Context::ExecuteSyscall` (part_001
lines 288-295): eax receives the handler's return value unless the system
call is sigreturn or the handler left the context suspended. -/
def executeSyscallCommit (code : Nat) (ctxAfter : SyscallContext)
    (ret : Int) : SyscallContext :=
  if code ≠ SyscallCode_sigreturn ∧ ctxAfter.suspended = false then
    { ctxAfter with regs := { ctxAfter.regs with eax := ret } }
  else
    ctxAfter

/-- SIM_CLONE_VM (part_001 line 160). -/
def SIM_CLONE_VM : Nat := 0x100
/-- SIM_CLONE_FS (part_001 line 161). -/
def SIM_CLONE_FS : Nat := 0x200
/-- SIM_CLONE_FILES (part_001 line 162). -/
def SIM_CLONE_FILES : Nat := 0x400
/-- SIM_CLONE_SIGHAND (part_001 line 163). -/
def SIM_CLONE_SIGHAND : Nat := 0x800
/-- SIM_CLONE_THREAD (part_001 line 167). -/
def SIM_CLONE_THREAD : Nat := 0x10000
/-- SIM_CLONE_SYSVSEM (part_001 line 169). -/
def SIM_CLONE_SYSVSEM : Nat := 0x40000
/-- SIM_CLONE_SETTLS (part_001 line 170). -/
def SIM_CLONE_SETTLS : Nat := 0x80000
/-- SIM_CLONE_PARENT_SETTID (part_001 line 171). -/
def SIM_CLONE_PARENT_SETTID : Nat := 0x100000
/-- SIM_CLONE_CHILD_CLEARTID (part_001 line 172). -/
def SIM_CLONE_CHILD_CLEARTID : Nat := 0x200000
/-- SIM_CLONE_CHILD_SETTID (part_001 line 175). -/
def SIM_CLONE_CHILD_SETTID : Nat := 0x1000000

/-- clone_supported_flags (part_001 lines 211-221). -/
def clone_supported_flags : Nat :=
  SIM_CLONE_VM ||| SIM_CLONE_FS ||| SIM_CLONE_FILES ||| SIM_CLONE_SIGHAND |||
  SIM_CLONE_THREAD ||| SIM_CLONE_SYSVSEM ||| SIM_CLONE_SETTLS |||
  SIM_CLONE_PARENT_SETTID ||| SIM_CLONE_CHILD_CLEARTID |||
  SIM_CLONE_CHILD_SETTID

/-- Reference held by a child context to a memory image: the same shared
object as the parent's (identified by id) or a private deep copy of it. -/
inductive MemImageRef where
  | sharedWith : Nat → MemImageRef
  | deepCopyOf : Nat → MemImageRef
deriving DecidableEq, Repr

/-- Reference held by a child context to a table: the parent's shared
instance or a fresh private one. -/
inductive TableRef where
  | sharedWith : Nat → TableRef
  | privateCopy : TableRef
deriving DecidableEq, Repr

/-- Resources of the parent context the clone handler can hand to the
child, identified by object ids. -/
structure CloneParent where
  memId : Nat
  fileTableId : Nat
  signalHandlerTableId : Nat
deriving DecidableEq, Repr

/-- Resources of the child context produced by clone. -/
structure CloneChild where
  memory : MemImageRef
  fileTable : TableRef
  signalHandlerTable : TableRef
deriving DecidableEq, Repr

/-- Modelled from the spec: `Context::Clone` shares the parent's memory
image, file descriptor table and signal handler table (its body is not
under src; spec section 4.4 clone semantics). -/
def contextClone (parent : CloneParent) : CloneChild :=
  { memory := MemImageRef.sharedWith parent.memId,
    fileTable := TableRef.sharedWith parent.fileTableId,
    signalHandlerTable := TableRef.sharedWith parent.signalHandlerTableId }

/-- Modelled from the spec: `Context::Fork` gives the child a deep copy of
the parent's memory image (its body is not under src; spec section 4.4
clone semantics); the tables are fresh private instances. -/
def contextFork (parent : CloneParent) : CloneChild :=
  { memory := MemImageRef.deepCopyOf parent.memId,
    fileTable := TableRef.privateCopy,
    signalHandlerTable := TableRef.privateCopy }

/-- Fatal diagnostic for clone flags outside clone_supported_flags
(part_001 lines 2337-2340). -/
def cloneUnsupportedFatalMsg : String :=
  "ExecuteSyscall_clone: not supported flags"

/-- Fatal diagnostic for an unsupported combination of CLONE_VM with
CLONE_FS/CLONE_FILES/CLONE_SIGHAND (part_001 lines 2347-2360; the source
uses the same message on both branches). -/
def cloneVmFatalMsg : String :=
  "ExecuteSyscall_clone: not supported flags with CLONE_VM"

/-- Shallow embedding of the resource-sharing decision of
`Context::ExecuteSyscall_clone` (part_001 lines 2313-2364): the exit
signal occupies the low byte and is stripped from the flags; flags
outside clone_supported_flags are fatal; with CLONE_VM the flags
CLONE_FS, CLONE_FILES and CLONE_SIGHAND must all be present (else fatal)
and the child shares the parent's memory, file table and signal handlers;
without CLONE_VM those three flags must all be absent (else fatal) and
the child receives a deep clone of the memory image. -/
def executeSyscallClone (rawFlags : Nat) (parent : CloneParent) :
    Except String CloneChild :=
  let flags := rawFlags &&& 0xFFFFFF00
  if flags &&& (0xFFFFFFFF ^^^ clone_supported_flags) ≠ 0 then
    Except.error cloneUnsupportedFatalMsg
  else if flags &&& SIM_CLONE_VM ≠ 0 then
    if flags &&& (SIM_CLONE_FS ||| SIM_CLONE_FILES ||| SIM_CLONE_SIGHAND) ≠
        (SIM_CLONE_FS ||| SIM_CLONE_FILES ||| SIM_CLONE_SIGHAND) then
      Except.error cloneVmFatalMsg
    else
      Except.ok (contextClone parent)
  else
    if flags &&& (SIM_CLONE_FS ||| SIM_CLONE_FILES ||| SIM_CLONE_SIGHAND) ≠
        0 then
      Except.error cloneVmFatalMsg
    else
      Except.ok (contextFork parent)

/-- Result of the __UNIMPLEMENTED__ macro (part_001 lines 46-47): a fatal
diagnostic naming the system call (misc::fatal terminates the simulation;
the trailing `return 0` is dead code). -/
def syscallUnimplemented (name : String) : Except String Int :=
  Except.error (name ++ ": unimplemented system call.")

/-- ExecuteSyscall_restart_syscall (part_001 lines 312-315). -/
def executeSyscall_restart_syscall : Except String Int :=
  syscallUnimplemented "restart_syscall"

/-- ExecuteSyscall_fork (part_001 lines 342-345). -/
def executeSyscall_fork : Except String Int :=
  syscallUnimplemented "fork"

/-- ExecuteSyscall_execve (part_001 lines 748-751). -/
def executeSyscall_execve : Except String Int :=
  syscallUnimplemented "execve"

/-- ExecuteSyscall_sigreturn (part_001 lines 2294-2297). -/
def executeSyscall_sigreturn : Except String Int :=
  syscallUnimplemented "sigreturn"

/-!
Theorems for the coherence-engine claims.
-/

/-- Helper: inserting the requester into a sharer set filtered down to the
requester leaves exactly the requester. -/
theorem insert_filter_self_eq_singleton (req : Nat) (s : Finset Nat) :
    insert req (s.filter (fun n => n = req)) = {req} := by
  ext n
  simp only [Finset.mem_insert, Finset.mem_filter, Finset.mem_singleton]
  constructor
  · rintro (h | ⟨_, h⟩) <;> exact h
  · intro h
    exact Or.inl h

/-- Directory entries used by the C1 counterexample: a single sub-block
with no sharers and no owner. -/
def c1entries : Nat → DirEntry := fun _ => { sharers := ∅, owner := none }

/-- C1 counterexample: an up-down write request at a target whose block is
resident E (first run) or S (second run) completes without error yet
leaves the target block in state E, while the claim requires state M in
both situations. -/
theorem c1_counterexample :
    (writeRequestUpdown 1 BlockState.exclusive 1 c1entries 0 0 4 4
        false).state = BlockState.exclusive ∧
    (writeRequestUpdown 1 BlockState.exclusive 1 c1entries 0 0 4 4
        false).err = false ∧
    (writeRequestUpdown 1 BlockState.shared 1 c1entries 0 0 4 4
        false).state = BlockState.exclusive ∧
    (writeRequestUpdown 1 BlockState.shared 1 c1entries 0 0 4 4
        false).err = false := by
  refine ⟨rfl, rfl, rfl, rfl⟩

/-- C1 amended: an up-down write request that completes without a lock
error replies with the requester's block size plus the 8-byte header,
forwards an exclusive request to the next level down exactly when the
target block was not resident M or E, leaves the target block in state M
when it was M and in state E otherwise, and records the requester as sole
sharer and owner of every requested sub-block. -/
theorem c1_write_request_updown (req : Nat) (state : BlockState)
    (zsize : Nat) (entries : Nat → DirEntry)
    (tag addr minB reqB : Nat) (lowErr : Bool) (hlow : lowErr = false) :
    (writeRequestUpdown req state zsize entries tag addr minB reqB
        lowErr).err = false ∧
    (writeRequestUpdown req state zsize entries tag addr minB reqB
        lowErr).replySize = reqB + 8 ∧
    (writeRequestUpdown req state zsize entries tag addr minB reqB
        lowErr).requestedExclusiveBelow =
      (!(state == BlockState.modified) &&
        !(state == BlockState.exclusive)) ∧
    (writeRequestUpdown req state zsize entries tag addr minB reqB
        lowErr).state =
      (if state = BlockState.modified then BlockState.modified
        else BlockState.exclusive) ∧
    (∀ z, z < zsize → inRequestedRange tag addr minB reqB z = true →
      ((writeRequestUpdown req state zsize entries tag addr minB reqB
          lowErr).entries z).owner = some req ∧
      ((writeRequestUpdown req state zsize entries tag addr minB reqB
          lowErr).entries z).sharers = {req}) := by
  subst hlow
  refine ⟨?_, ?_, ?_, ?_, ?_⟩
  · simp [writeRequestUpdown]
  · simp [writeRequestUpdown]
  · simp [writeRequestUpdown]
  · simp [writeRequestUpdown]
  · intro z hz hr
    constructor
    · simp [writeRequestUpdown, hz, hr, dir_entry_set_sharer]
    · simp [writeRequestUpdown, hz, hr, dir_entry_set_sharer,
        invalidateEntryExcept, insert_filter_self_eq_singleton]

/-- C1 witness: the amended theorem evaluated on a concrete run with the
target block resident S and one requested sub-block. -/
theorem c1_write_request_updown_witness :
    ((writeRequestUpdown 1 BlockState.shared 1 c1entries 0 0 4 4
        false).entries 0).sharers = {1} ∧
    ((writeRequestUpdown 1 BlockState.shared 1 c1entries 0 0 4 4
        false).entries 0).owner = some 1 ∧
    (writeRequestUpdown 1 BlockState.shared 1 c1entries 0 0 4 4
        false).replySize = 12 ∧
    (writeRequestUpdown 1 BlockState.shared 1 c1entries 0 0 4 4
        false).requestedExclusiveBelow = true := by
  obtain ⟨-, hreply, hbelow, -, hentry⟩ :=
    c1_write_request_updown 1 BlockState.shared 1 c1entries 0 0 4 4
      false rfl
  obtain ⟨howner, hsharers⟩ := hentry 0 (by decide) (by decide)
  exact ⟨hsharers, howner, hreply, hbelow⟩

/-- C6: a non-blocking find-and-lock that meets a held directory lock
returns err=1 without enqueueing; the retry latency is at least the
module latency and below twice the module latency; the load and store
flows reschedule themselves with that latency and bump the module's
read-retry and write-retry counters. -/
theorem c6_nonblocking_lock_retry (accessId : Nat) (dl : DirLock)
    (state : BlockState) (readErr sharedReply : Bool)
    (rand latency : Nat) (hlock : dl.lock = true) (hlat : 0 < latency) :
    ((findAndLockAcquire accessId false dl).err = true ∧
      (findAndLockAcquire accessId false dl).acquired = false ∧
      (findAndLockAcquire accessId false dl).dirLock = dl) ∧
    (latency ≤ retryLatency rand latency ∧
      retryLatency rand latency < 2 * latency) ∧
    ((runLoadFromAction true state readErr sharedReply rand
        latency).retryScheduled = true ∧
      (runLoadFromAction true state readErr sharedReply rand
        latency).retryDelay = retryLatency rand latency ∧
      (runLoadFromAction true state readErr sharedReply rand
        latency).readRetriesInc = 1) ∧
    ((storeActionOnErr rand latency).retryScheduled = true ∧
      (storeActionOnErr rand latency).retryDelay =
        retryLatency rand latency ∧
      (storeActionOnErr rand latency).writeRetriesInc = 1) := by
  refine ⟨?_, ⟨?_, ?_⟩, ⟨rfl, rfl, rfl⟩, ⟨rfl, rfl, rfl⟩⟩
  · simp [findAndLockAcquire, hlock]
  · exact Nat.le_add_left latency (rand % latency)
  · have h := Nat.mod_lt rand hlat
    calc rand % latency + latency < latency + latency :=
          Nat.add_lt_add_right h latency
      _ = 2 * latency := (Nat.two_mul latency).symm

/-- C6 witness: the theorem evaluated at a held lock, latency 3 and
random value 7. -/
theorem c6_nonblocking_lock_retry_witness :
    ((findAndLockAcquire 5 false { lock := true, queue := [] }).err =
        true ∧
      (findAndLockAcquire 5 false { lock := true, queue := [] }).acquired
        = false ∧
      (findAndLockAcquire 5 false { lock := true, queue := [] }).dirLock
        = { lock := true, queue := [] }) ∧
    (3 ≤ retryLatency 7 3 ∧ retryLatency 7 3 < 2 * 3) ∧
    ((runLoadFromAction true BlockState.invalid false false 7
        3).retryScheduled = true ∧
      (runLoadFromAction true BlockState.invalid false false 7
        3).retryDelay = retryLatency 7 3 ∧
      (runLoadFromAction true BlockState.invalid false false 7
        3).readRetriesInc = 1) ∧
    ((storeActionOnErr 7 3).retryScheduled = true ∧
      (storeActionOnErr 7 3).retryDelay = retryLatency 7 3 ∧
      (storeActionOnErr 7 3).writeRetriesInc = 1) :=
  c6_nonblocking_lock_retry 5 { lock := true, queue := [] }
    BlockState.invalid false false 7 3 rfl (by decide)

/-- Outcome of a load hit (no downward request, finish and unlock). -/
def loadHitOutcome : LoadOutcome :=
  { sentReadRequest := false, installed := none, finished := true,
    unlocked := true, retryScheduled := false, retryDelay := 0,
    readRetriesInc := 0 }

/-- Outcome of an error-free load miss: read request sent downward, block
installed S on a shared reply and E otherwise, finish and unlock. -/
def loadMissOutcome (sharedReply : Bool) : LoadOutcome :=
  { sentReadRequest := true,
    installed := some (if sharedReply then BlockState.shared
      else BlockState.exclusive),
    finished := true, unlocked := true, retryScheduled := false,
    retryDelay := 0, readRetriesInc := 0 }

/-- C8: a load whose find-and-lock succeeds finishes without sending any
downward request on a hit; on a miss with an error-free read request it
sends the read request below, installs S exactly when the reply was
shared and E otherwise, finishes, and releases the directory lock. -/
theorem c8_load_flow (state : BlockState) (readErr sharedReply : Bool)
    (rand latency : Nat) (hread : readErr = false) :
    (state ≠ BlockState.invalid →
      runLoadFromAction false state readErr sharedReply rand latency =
        loadHitOutcome) ∧
    (state = BlockState.invalid →
      runLoadFromAction false state readErr sharedReply rand latency =
        loadMissOutcome sharedReply) := by
  subst hread
  constructor
  · intro hs
    simp [runLoadFromAction, hs, loadHitOutcome]
  · intro hs
    simp [runLoadFromAction, hs, loadMissOutcome]

/-- C8 witness: the theorem evaluated on a hit in state M and on a miss
with a shared reply. -/
theorem c8_load_flow_witness :
    (BlockState.modified ≠ BlockState.invalid →
      runLoadFromAction false BlockState.modified false true 0 1 =
        loadHitOutcome) ∧
    (BlockState.invalid = BlockState.invalid →
      runLoadFromAction false BlockState.invalid false true 0 1 =
        loadMissOutcome true) :=
  ⟨(c8_load_flow BlockState.modified false true 0 1 rfl).1,
    (c8_load_flow BlockState.invalid false true 0 1 rfl).2⟩

namespace TwoLevel

/-- Directory well-formedness used to strengthen the induction for claim
C7, taken from the spec's directory invariants (an owner in state O holds
its sharer bit): the claim's predicate alone is not inductive over
protocol-unreachable states. -/
def cacheWF (i : NodeId) (s : Sys) : Bool :=
  cacheInv i s &&
    (if getCache i s = BlockState.owned then getSharer i s else true)

/-- System-wide strengthened invariant: claim C7's predicate plus the
directory well-formedness, for both caches. -/
def sysWF (s : Sys) : Bool := cacheWF NodeId.n1 s && cacheWF NodeId.n2 s

end TwoLevel

/-- Exhaustive check of claim C7's amended statement over every system
state and both caches, with the state exploded into its components. -/
theorem twoLevelPreservationCheck :
    ∀ (c1 c2 lo : BlockState) (s1 s2 : Bool)
      (ow : Option TwoLevel.NodeId) (i : TwoLevel.NodeId),
      TwoLevel.sysWF ⟨c1, c2, lo, s1, s2, ow⟩ = true →
      TwoLevel.invHolds ⟨c1, c2, lo, s1, s2, ow⟩ = true ∧
      (TwoLevel.sysWF (TwoLevel.doLoad i ⟨c1, c2, lo, s1, s2, ow⟩) = true ∧
        TwoLevel.invHolds (TwoLevel.doLoad i ⟨c1, c2, lo, s1, s2, ow⟩) =
          true) ∧
      (TwoLevel.sysWF (TwoLevel.doStore i ⟨c1, c2, lo, s1, s2, ow⟩) = true ∧
        TwoLevel.invHolds (TwoLevel.doStore i ⟨c1, c2, lo, s1, s2, ow⟩) =
          true) ∧
      (TwoLevel.sysWF (TwoLevel.doEvict i ⟨c1, c2, lo, s1, s2, ow⟩) = true ∧
        TwoLevel.invHolds (TwoLevel.doEvict i ⟨c1, c2, lo, s1, s2, ow⟩) =
          true) := by
  decide

/-- Initial system state of the C7 counterexample: both caches I, main
memory block not yet materialised, empty directory. -/
def c7start : TwoLevel.Sys :=
  { cache1 := BlockState.invalid, cache2 := BlockState.invalid,
    low := BlockState.invalid, sharer1 := false, sharer2 := false,
    owner := none }

/-- C7 counterexample: the predicate holds before a load at cache 1, yet
at the point between EV_MOD_READ_REQUEST_UPDOWN_FINISH at the lower
module and EV_MOD_LOAD_MISS at the requester (the reply message and its
receipt are scheduled events in between), the lower directory already
records cache 1 as sharer and owner while cache 1's block is still I, so
the predicate is not maintained at every point between coherence events;
it holds again once the load completes. -/
theorem c7_counterexample :
    TwoLevel.invHolds c7start = true ∧
    TwoLevel.getCache TwoLevel.NodeId.n1
      (TwoLevel.loadMissMid TwoLevel.NodeId.n1 c7start) =
      BlockState.invalid ∧
    TwoLevel.getSharer TwoLevel.NodeId.n1
      (TwoLevel.loadMissMid TwoLevel.NodeId.n1 c7start) = true ∧
    (TwoLevel.loadMissMid TwoLevel.NodeId.n1 c7start).owner =
      some TwoLevel.NodeId.n1 ∧
    TwoLevel.invHolds (TwoLevel.loadMissMid TwoLevel.NodeId.n1 c7start) =
      false ∧
    TwoLevel.invHolds (TwoLevel.doLoad TwoLevel.NodeId.n1 c7start) =
      true := by
  decide

/-- C7 amended: in the two-cache one-address instance of the protocol,
claim C7's predicate (strengthened with the spec's directory
well-formedness, under which it is inductive) holds in every well-formed
state and is preserved end to end by every complete coherence operation
(load, store and evict together with their constituent read requests,
write requests and invalidations); the preceding counterexample shows it
is not maintained between the individual events inside one operation. -/
theorem c7_invariant_preserved (s : TwoLevel.Sys) (i : TwoLevel.NodeId)
    (h : TwoLevel.sysWF s = true) :
    TwoLevel.invHolds s = true ∧
    (TwoLevel.sysWF (TwoLevel.doLoad i s) = true ∧
      TwoLevel.invHolds (TwoLevel.doLoad i s) = true) ∧
    (TwoLevel.sysWF (TwoLevel.doStore i s) = true ∧
      TwoLevel.invHolds (TwoLevel.doStore i s) = true) ∧
    (TwoLevel.sysWF (TwoLevel.doEvict i s) = true ∧
      TwoLevel.invHolds (TwoLevel.doEvict i s) = true) := by
  obtain ⟨c1, c2, lo, s1, s2, ow⟩ := s
  exact twoLevelPreservationCheck c1 c2 lo s1 s2 ow i h

/-- C7 witness: the amended theorem applied to the state where cache 1
holds the block M as sole sharer and owner, for operations at cache 2. -/
theorem c7_invariant_preserved_witness :
    TwoLevel.invHolds
      ⟨BlockState.modified, BlockState.invalid, BlockState.exclusive,
        true, false, some TwoLevel.NodeId.n1⟩ = true ∧
    (TwoLevel.sysWF (TwoLevel.doLoad TwoLevel.NodeId.n2
        ⟨BlockState.modified, BlockState.invalid, BlockState.exclusive,
          true, false, some TwoLevel.NodeId.n1⟩) = true ∧
      TwoLevel.invHolds (TwoLevel.doLoad TwoLevel.NodeId.n2
        ⟨BlockState.modified, BlockState.invalid, BlockState.exclusive,
          true, false, some TwoLevel.NodeId.n1⟩) = true) ∧
    (TwoLevel.sysWF (TwoLevel.doStore TwoLevel.NodeId.n2
        ⟨BlockState.modified, BlockState.invalid, BlockState.exclusive,
          true, false, some TwoLevel.NodeId.n1⟩) = true ∧
      TwoLevel.invHolds (TwoLevel.doStore TwoLevel.NodeId.n2
        ⟨BlockState.modified, BlockState.invalid, BlockState.exclusive,
          true, false, some TwoLevel.NodeId.n1⟩) = true) ∧
    (TwoLevel.sysWF (TwoLevel.doEvict TwoLevel.NodeId.n2
        ⟨BlockState.modified, BlockState.invalid, BlockState.exclusive,
          true, false, some TwoLevel.NodeId.n1⟩) = true ∧
      TwoLevel.invHolds (TwoLevel.doEvict TwoLevel.NodeId.n2
        ⟨BlockState.modified, BlockState.invalid, BlockState.exclusive,
          true, false, some TwoLevel.NodeId.n1⟩) = true) :=
  c7_invariant_preserved
    ⟨BlockState.modified, BlockState.invalid, BlockState.exclusive,
      true, false, some TwoLevel.NodeId.n1⟩
    TwoLevel.NodeId.n2 (by decide)

/-!
Theorems for the system-call claims.
-/

/-- Futex result leaving the caller, the suspended list and the sleep
counter untouched, with return value `v`. -/
def futexUnchangedResult (v : Int) (selfCtx : FutexCtx)
    (l : List FutexCtx) (cnt : Nat) : FutexResult :=
  { ret := v, caller := selfCtx, suspendedList := l,
    futexSleepCount := cnt }

/-- Caller context after a futex WAIT suspension: wakeup futex address,
bitset and freshly incremented sleep epoch recorded, ContextSuspended and
ContextFutex set. -/
def futexSuspendedSelf (addr1 bitset cnt : Nat) : FutexCtx :=
  { wakeup_futex := addr1, wakeup_futex_bitset := bitset,
    wakeup_futex_sleep := cnt + 1, suspended := true, futexBit := true }

/-- Futex result of a successful WAIT suspension. -/
def futexSuspendResult (addr1 bitset cnt : Nat) (l : List FutexCtx) :
    FutexResult :=
  { ret := 0, caller := futexSuspendedSelf addr1 bitset cnt,
    suspendedList := l, futexSleepCount := cnt + 1 }

/-- Futex result of a successful CMP_REQUEUE: the return value counts the
contexts woken on addr1, and the remaining addr1 waiters are requeued to
addr2. -/
def futexRequeueResult (addr1 addr2 val1 : Nat) (selfCtx : FutexCtx)
    (l : List FutexCtx) (cnt : Nat) : FutexResult :=
  { ret := ((futexWake addr1 0xFFFFFFFF val1 l).1 : Int),
    caller := selfCtx,
    suspendedList :=
      requeueFutexList addr1 addr2 (futexWake addr1 0xFFFFFFFF val1 l).2,
    futexSleepCount := cnt }

/-- C2: a futex WAIT or WAIT_BITSET returns -EAGAIN without suspending
when the word at addr1 differs from val1; with a matching word and a null
timeout it suspends the caller recording addr1, the bitset (val3 for
WAIT_BITSET, all ones for WAIT) and the freshly incremented global sleep
epoch; with a matching word and a non-null timeout it fails with an
explicit fatal diagnostic. -/
theorem c2_futex_wait (addr1 op val1 timeoutPtr addr2 val3
    futexWord : Nat) (selfCtx : FutexCtx) (l : List FutexCtx) (cnt : Nat)
    (hcmd : op &&& 0xFFFFFE7F = 0 ∨ op &&& 0xFFFFFE7F = 9) :
    (futexWord ≠ val1 →
      futexSyscall addr1 op val1 timeoutPtr addr2 val3 futexWord selfCtx
          l cnt =
        some (Except.ok
          (futexUnchangedResult (-(SIM_EAGAIN : Int)) selfCtx l cnt))) ∧
    (futexWord = val1 → timeoutPtr ≠ 0 →
      futexSyscall addr1 op val1 timeoutPtr addr2 val3 futexWord selfCtx
          l cnt =
        some (Except.error futexWaitTimeoutFatalMsg)) ∧
    (futexWord = val1 → timeoutPtr = 0 →
      futexSyscall addr1 op val1 timeoutPtr addr2 val3 futexWord selfCtx
          l cnt =
        some (Except.ok (futexSuspendResult addr1
          (if op &&& 0xFFFFFE7F = 9 then val3 else 0xFFFFFFFF) cnt l))) := by
  rcases hcmd with h | h <;>
    refine ⟨?_, ?_, ?_⟩ <;>
      simp only [futexSyscall, h] <;>
        intro h1 <;>
          first
          | (intro h2
             simp [h1, h2, futexUnchangedResult, futexSuspendResult,
               futexSuspendedSelf])
          | simp [h1, futexUnchangedResult, futexSuspendResult,
              futexSuspendedSelf]

/-- Context that is running (not suspended on anything). -/
def runningCtx : FutexCtx :=
  { wakeup_futex := 0, wakeup_futex_bitset := 0, wakeup_futex_sleep := 0,
    suspended := false, futexBit := false }

/-- C2 witness: the theorem evaluated for FUTEX_WAIT (op 0) with a
matching word and a null timeout. -/
theorem c2_futex_wait_witness :
    ((5 : Nat) ≠ 5 →
      futexSyscall 100 0 5 0 0 0 5 runningCtx [] 3 =
        some (Except.ok
          (futexUnchangedResult (-(SIM_EAGAIN : Int)) runningCtx [] 3))) ∧
    ((5 : Nat) = 5 → (0 : Nat) ≠ 0 →
      futexSyscall 100 0 5 0 0 0 5 runningCtx [] 3 =
        some (Except.error futexWaitTimeoutFatalMsg)) ∧
    ((5 : Nat) = 5 → (0 : Nat) = 0 →
      futexSyscall 100 0 5 0 0 0 5 runningCtx [] 3 =
        some (Except.ok (futexSuspendResult 100
          (if (0 : Nat) &&& 0xFFFFFE7F = 9 then 0 else 0xFFFFFFFF) 3
          []))) :=
  c2_futex_wait 100 0 5 0 0 0 5 runningCtx [] 3 (by decide)

/-- C10: futex CMP_REQUEUE aborts with a fatal diagnostic unless the raw
timeout register is INTMAX; under that precondition it returns -EAGAIN
without touching any context when the word at addr1 differs from val3,
and otherwise wakes up to val1 waiters of addr1, requeues every remaining
addr1 waiter to addr2, and returns the number woken; the final conjunct
pins the pointwise meaning of the requeue pass. -/
theorem c10_futex_cmp_requeue (addr1 op val1 timeoutPtr addr2 val3
    futexWord : Nat) (selfCtx : FutexCtx) (l : List FutexCtx) (cnt : Nat)
    (hcmd : op &&& 0xFFFFFE7F = 4) :
    (timeoutPtr ≠ 0x7FFFFFFF →
      futexSyscall addr1 op val1 timeoutPtr addr2 val3 futexWord selfCtx
          l cnt =
        some (Except.error futexCmpRequeueFatalMsg)) ∧
    (timeoutPtr = 0x7FFFFFFF → futexWord ≠ val3 →
      futexSyscall addr1 op val1 timeoutPtr addr2 val3 futexWord selfCtx
          l cnt =
        some (Except.ok
          (futexUnchangedResult (-(SIM_EAGAIN : Int)) selfCtx l cnt))) ∧
    (timeoutPtr = 0x7FFFFFFF → futexWord = val3 →
      futexSyscall addr1 op val1 timeoutPtr addr2 val3 futexWord selfCtx
          l cnt =
        some (Except.ok
          (futexRequeueResult addr1 addr2 val1 selfCtx l cnt))) ∧
    (∀ (m : List FutexCtx) (j : Nat),
      (requeueFutexList addr1 addr2 m)[j]? = (m[j]?).map (fun c =>
        if c.suspended && c.futexBit && c.wakeup_futex == addr1 then
          { c with wakeup_futex := addr2 }
        else c)) := by
  refine ⟨?_, ?_, ?_, ?_⟩
  · intro h1
    simp [futexSyscall, hcmd, h1]
  · intro h1 h2
    simp [futexSyscall, hcmd, h1, h2, futexUnchangedResult]
  · intro h1 h2
    simp [futexSyscall, hcmd, h1, h2, futexRequeueResult]
  · intro m j
    simp [requeueFutexList, List.getElem?_map]

/-- Waiter suspended on futex 100 with sleep epoch 1. -/
def c10waiterA : FutexCtx :=
  { wakeup_futex := 100, wakeup_futex_bitset := 0xFFFFFFFF,
    wakeup_futex_sleep := 1, suspended := true, futexBit := true }

/-- Waiter suspended on futex 100 with sleep epoch 2. -/
def c10waiterB : FutexCtx :=
  { wakeup_futex := 100, wakeup_futex_bitset := 0xFFFFFFFF,
    wakeup_futex_sleep := 2, suspended := true, futexBit := true }

/-- C10 witness: CMP_REQUEUE with INTMAX timeout and matching word over
two waiters of futex 100 wakes the older waiter and requeues the other to
futex 200, returning 1. -/
theorem c10_futex_cmp_requeue_witness :
    futexSyscall 100 4 1 0x7FFFFFFF 200 5 5 runningCtx
        [c10waiterA, c10waiterB] 7 =
      some (Except.ok
        { ret := 1, caller := runningCtx,
          suspendedList :=
            [{ c10waiterA with suspended := false, futexBit := false },
              { c10waiterB with wakeup_futex := 200 }],
          futexSleepCount := 7 }) := by
  have h := (c10_futex_cmp_requeue 100 4 1 0x7FFFFFFF 200 5 5 runningCtx
    [c10waiterA, c10waiterB] 7 (by decide)).2.2.1 rfl rfl
  exact h.trans (by decide)

/-- Memory image before the C3 counterexample: heap break 0x1000 and the
page below it mapped. -/
def c3mem0 : BrkMemory := { heapBreak := 0x1000, pages := {0} }

/-- Memory image after brk(0x1801) from c3mem0: the new page is mapped
and the stored break is the unaligned 0x1801. -/
def c3mem1 : BrkMemory := { heapBreak := 0x1801, pages := {0, 0x1000} }

/-- C3 counterexample: brk(0x1801) succeeds, but the immediately
following brk(0) returns the unaligned break 0x1801 and not the
page-rounded 0x2000 the claim requires. -/
theorem c3_counterexample :
    executeSyscallBrk 0x1801 c3mem0 = Except.ok (0x1801, c3mem1) ∧
    executeSyscallBrk 0 c3mem1 = Except.ok (0x1801, c3mem1) ∧
    roundUpPage 0x1801 = 0x2000 ∧ (0x1801 : Nat) ≠ 0x2000 := by
  refine ⟨by decide, by decide, by decide, by decide⟩

/-- C3 amended: after a successful brk(x) with nonzero x, an immediately
following brk(0) returns exactly x, the unaligned new break. -/
theorem c3_brk_returns_exact_break (x r : Nat) (mem mem' : BrkMemory)
    (hx : x ≠ 0) (h : executeSyscallBrk x mem = Except.ok (r, mem')) :
    executeSyscallBrk 0 mem' = Except.ok (x, mem') := by
  have hzero : executeSyscallBrk 0 mem' =
      Except.ok (mem'.heapBreak, mem') := rfl
  have hb : mem'.heapBreak = x := by
    simp only [executeSyscallBrk] at h
    rw [if_neg hx] at h
    split at h
    case isTrue hlt =>
      split at h
      case isTrue hsz =>
        split at h
        case isTrue hfree =>
          simp only [Except.ok.injEq, Prod.mk.injEq] at h
          rw [← h.2]
        case isFalse hfree =>
          simp at h
      case isFalse hsz =>
        simp only [Except.ok.injEq, Prod.mk.injEq] at h
        rw [← h.2]
    case isFalse hlt =>
      split at h
      case isTrue hlt2 =>
        simp only [Except.ok.injEq, Prod.mk.injEq] at h
        rw [← h.2]
      case isFalse hlt2 =>
        simp only [Except.ok.injEq, Prod.mk.injEq] at h
        rw [← h.2]
        omega
  rw [hzero, hb]

/-- C3 witness: the amended theorem applied to the counterexample run. -/
theorem c3_brk_returns_exact_break_witness :
    executeSyscallBrk 0 c3mem1 = Except.ok (0x1801, c3mem1) :=
  c3_brk_returns_exact_break 0x1801 0x1801 c3mem0 c3mem1 (by decide)
    (by decide)

/-- C4: for every system call other than sigreturn, a handler that left
the context suspended keeps the prior eax (the whole context is
untouched), and otherwise eax receives exactly the handler's return
value. -/
theorem c4_syscall_return_register (code : Nat) (ctx : SyscallContext)
    (ret : Int) (h : code ≠ SyscallCode_sigreturn) :
    (ctx.suspended = true →
      executeSyscallCommit code ctx ret = ctx) ∧
    (ctx.suspended = false →
      (executeSyscallCommit code ctx ret).regs.eax = ret ∧
      (executeSyscallCommit code ctx ret).suspended = ctx.suspended) := by
  constructor
  · intro hs
    simp [executeSyscallCommit, hs, h]
  · intro hs
    simp [executeSyscallCommit, hs, h]

/-- C4 witness: the theorem evaluated for syscall code 3 (read) on a
suspended context and on a running context. -/
theorem c4_syscall_return_register_witness :
    ((⟨⟨7⟩, true⟩ : SyscallContext).suspended = true →
      executeSyscallCommit 3 ⟨⟨7⟩, true⟩ 5 = ⟨⟨7⟩, true⟩) ∧
    ((⟨⟨7⟩, true⟩ : SyscallContext).suspended = false →
      (executeSyscallCommit 3 ⟨⟨7⟩, true⟩ 5).regs.eax = 5 ∧
      (executeSyscallCommit 3 ⟨⟨7⟩, true⟩ 5).suspended =
        (⟨⟨7⟩, true⟩ : SyscallContext).suspended) :=
  c4_syscall_return_register 3 ⟨⟨7⟩, true⟩ 5 (by decide)

/-- Parent resources of the C5 runs. -/
def c5parent : CloneParent :=
  { memId := 10, fileTableId := 20, signalHandlerTableId := 30 }

/-- C5 counterexample: clone with flags CLONE_FS only (CLONE_VM absent)
is fatal, while the claim requires every CLONE_VM-free clone to produce a
deep clone of the memory image. -/
theorem c5_counterexample :
    executeSyscallClone 0x200 c5parent = Except.error cloneVmFatalMsg ∧
    (executeSyscallClone 0x200 c5parent).isOk = false := by
  refine ⟨rfl, rfl⟩

/-- C5 amended: unsupported flags are fatal; CLONE_VM without all three
of CLONE_FS, CLONE_FILES, CLONE_SIGHAND is fatal; CLONE_VM with all
three shares the parent's memory image, file table and signal handlers;
without CLONE_VM the three flags are fatal too, and with none of them
the child receives a deep clone of the memory image. -/
theorem c5_clone_flags (rawFlags : Nat) (parent : CloneParent) :
    ((rawFlags &&& 0xFFFFFF00) &&&
        (0xFFFFFFFF ^^^ clone_supported_flags) ≠ 0 →
      (executeSyscallClone rawFlags parent).isOk = false) ∧
    ((rawFlags &&& 0xFFFFFF00) &&&
        (0xFFFFFFFF ^^^ clone_supported_flags) = 0 →
      ((rawFlags &&& 0xFFFFFF00) &&& SIM_CLONE_VM ≠ 0 →
        ((rawFlags &&& 0xFFFFFF00) &&&
            (SIM_CLONE_FS ||| SIM_CLONE_FILES ||| SIM_CLONE_SIGHAND) ≠
            (SIM_CLONE_FS ||| SIM_CLONE_FILES ||| SIM_CLONE_SIGHAND) →
          executeSyscallClone rawFlags parent =
            Except.error cloneVmFatalMsg) ∧
        ((rawFlags &&& 0xFFFFFF00) &&&
            (SIM_CLONE_FS ||| SIM_CLONE_FILES ||| SIM_CLONE_SIGHAND) =
            (SIM_CLONE_FS ||| SIM_CLONE_FILES ||| SIM_CLONE_SIGHAND) →
          executeSyscallClone rawFlags parent =
            Except.ok (contextClone parent))) ∧
      ((rawFlags &&& 0xFFFFFF00) &&& SIM_CLONE_VM = 0 →
        ((rawFlags &&& 0xFFFFFF00) &&&
            (SIM_CLONE_FS ||| SIM_CLONE_FILES ||| SIM_CLONE_SIGHAND) ≠
            0 →
          executeSyscallClone rawFlags parent =
            Except.error cloneVmFatalMsg) ∧
        ((rawFlags &&& 0xFFFFFF00) &&&
            (SIM_CLONE_FS ||| SIM_CLONE_FILES ||| SIM_CLONE_SIGHAND) =
            0 →
          executeSyscallClone rawFlags parent =
            Except.ok (contextFork parent)))) := by
  constructor
  · intro h1
    simp [executeSyscallClone, h1, Except.isOk, Except.toBool]
  · intro h1
    constructor
    · intro h2
      constructor
      · intro h3
        simp [executeSyscallClone, h1, h2, h3]
      · intro h3
        simp [executeSyscallClone, h1, h2, h3]
    · intro h2
      constructor
      · intro h3
        simp [executeSyscallClone, h1, h2, h3]
      · intro h3
        simp [executeSyscallClone, h1, h2, h3]

/-- C5 witness: the amended theorem evaluated at flags
CLONE_VM|CLONE_FS|CLONE_FILES|CLONE_SIGHAND, under which the child shares
the parent's memory, file table and signal handlers. -/
theorem c5_clone_flags_witness :
    (((0xF00 : Nat) &&& 0xFFFFFF00) &&&
        (0xFFFFFFFF ^^^ clone_supported_flags) = 0) ∧
    (((0xF00 : Nat) &&& 0xFFFFFF00) &&& SIM_CLONE_VM ≠ 0) ∧
    (((0xF00 : Nat) &&& 0xFFFFFF00) &&&
        (SIM_CLONE_FS ||| SIM_CLONE_FILES ||| SIM_CLONE_SIGHAND) =
        (SIM_CLONE_FS ||| SIM_CLONE_FILES ||| SIM_CLONE_SIGHAND)) ∧
    executeSyscallClone 0xF00 c5parent =
      Except.ok (contextClone c5parent) := by
  refine ⟨by decide, by decide, by decide, ?_⟩
  exact ((((c5_clone_flags 0xF00 c5parent).2 (by decide)).1
    (by decide)).2 (by decide))

/-- C9: the unimplemented system-call handlers restart_syscall, fork,
execve and sigreturn terminate the simulation with a fatal diagnostic
naming the system call and never yield a guest success value. -/
theorem c9_unimplemented_syscalls_fatal :
    executeSyscall_restart_syscall =
      Except.error ("restart_syscall" ++ ": unimplemented system call.") ∧
    executeSyscall_fork =
      Except.error ("fork" ++ ": unimplemented system call.") ∧
    executeSyscall_execve =
      Except.error ("execve" ++ ": unimplemented system call.") ∧
    executeSyscall_sigreturn =
      Except.error ("sigreturn" ++ ": unimplemented system call.") ∧
    executeSyscall_restart_syscall.isOk = false ∧
    executeSyscall_fork.isOk = false ∧
    executeSyscall_execve.isOk = false ∧
    executeSyscall_sigreturn.isOk = false := by
  refine ⟨rfl, rfl, rfl, rfl, rfl, rfl, rfl, rfl⟩
